import Mathlib

/-
Verification of the render-and-audit pipeline of the accessibility-checker
MCP server (index.js, the `accessibilityCheck` tool handler), as a shallow
embedding.  Every definition mirrors a concrete piece of the handler; the
external collaborators (module system, component renderer, auditor engine,
theme files) are supplied through an explicit environment record so that the
control flow of the handler is modelled exactly.
-/

namespace AccessibilityChecker

/-- A JavaScript value abstracted to the two attributes that the control
flow of the handler ever inspects: truthiness (the source tests `!theme` and
`themeModule.default || themeModule`) and an identity tag so that distinct
values can be told apart in theorems. -/
structure JsVal where
  truthy : Bool
  tag : Nat
deriving DecidableEq

/- ------------------------------------------------------------------
Module cache (`require.cache`), keyed by resolved absolute path.
Source: `try { delete require.cache[require.resolve(fullPath)]; } catch {}`
followed by `require(fullPath)`.
------------------------------------------------------------------ -/

/-- The cache-eviction step.  `resolveRes` is the outcome of
`require.resolve(fullPath)`: `some key` when resolution succeeds, `none`
when it throws (nonexistent file), in which case the catch block leaves the
cache untouched.  On success exactly the entry for the resolved key is
deleted. -/
def cacheEvictStep (resolveRes : Option String) (cache : List String) : List String :=
  match resolveRes with
  | some key => cache.filter (fun k => !(k == key))
  | none => cache

/-- The cache effect of `require(fullPath)` succeeding: the target entry and
entries for any newly loaded transitive dependencies are added; no entry is
ever removed by loading. -/
def cacheLoadStep (targetKey : String) (depKeys : List String) (cache : List String) : List String :=
  targetKey :: (depKeys ++ cache)

/- ------------------------------------------------------------------
Environment wrapping (MemoryRouter / ThemeProvider), source lines 312-344.
------------------------------------------------------------------ -/

/-- The fixed probe list of conventional theme file locations, in the order
the source declares them. -/
def themeLocations : List String :=
  ["src/theme.jsx", "src/theme.js", "src/theme.tsx", "src/theme.ts"]

/-- The theme-location loop.  For each location in order, `load loc` is
`some m` when `require(themePath)` succeeded and
`m = themeModule.default || themeModule` (the property access on a nullish
module throws, which counts as the `none` outcome); `none` means the try
body threw and the loop continues with the next location.  The result is the
value of the `theme` binding after the loop: the first successfully loaded
value, or `none` when every location failed. -/
def themeLoop (load : String → Option JsVal) : List String → Option JsVal
  | [] => none
  | loc :: rest =>
    match load loc with
    | some m => some m
    | none => themeLoop load rest

/-- The theme handed to the ThemeProvider: the loop result when it is truthy,
otherwise `createTheme()` (source: `if (!theme) theme = createTheme();`). -/
def resolveTheme (load : String → Option JsVal) (createThemeVal : JsVal) : JsVal :=
  match themeLoop load themeLocations with
  | some t => if t.truthy then t else createThemeVal
  | none => createThemeVal

/-- A React element as far as the wrapping step can observe it: the base
component element, possibly nested inside a MemoryRouter and/or a
ThemeProvider carrying a theme value. -/
inductive Element where
  | component (props : List String)
  | memoryRouter (child : Element)
  | themeProvider (theme : JsVal) (child : Element)
deriving DecidableEq

/-- The router try block: when `react-router-dom` resolves in the target
project the element is nested in a MemoryRouter, otherwise the catch block
skips the wrapper. -/
def wrapRouter (routerAvailable : Bool) (e : Element) : Element :=
  if routerAvailable then Element.memoryRouter e else e

/-- The MUI try block: when `@mui/material/styles` resolves, the element is
nested in a ThemeProvider carrying the theme chosen by `resolveTheme`;
otherwise the catch block skips the wrapper. -/
def wrapTheme (muiAvailable : Bool) (load : String → Option JsVal)
    (createThemeVal : JsVal) (e : Element) : Element :=
  if muiAvailable then Element.themeProvider (resolveTheme load createThemeVal) e else e

/-- The whole wrapping step in source order: the router wrapper is applied
first, then the theme wrapper (so the ThemeProvider ends up outermost when
both are present). -/
def wrapElement (routerAvailable muiAvailable : Bool) (load : String → Option JsVal)
    (createThemeVal : JsVal) (e : Element) : Element :=
  wrapTheme muiAvailable load createThemeVal (wrapRouter routerAvailable e)

/- ------------------------------------------------------------------
Auditor runner: the promise racing `axe.run` against a 30 s timer,
source lines 379-395.
------------------------------------------------------------------ -/

/-- The fixed timeout in milliseconds (source: `30_000`). -/
def axeTimeoutMs : Nat := 30000

/-- The message of the rejection produced when the timer fires first. -/
def timeoutMsg : String := "axe-core timed out after 30 seconds"

/-- One offending node as reported by the raw engine; `target` stands for the
engine-internal fields that the formatting step drops. -/
structure RawNode where
  html : String
  failureSummary : String
  target : List String
deriving DecidableEq

/-- One raw violation record from the engine; `tags` stands for the
engine-internal fields that the formatting step drops. -/
structure RawViolation where
  id : String
  impact : Option String
  description : String
  help : String
  helpUrl : String
  tags : List String
  nodes : List RawNode
deriving DecidableEq

/-- The raw result structure the engine resolves with. -/
structure AxeResults where
  violations : List RawViolation
deriving DecidableEq

/-- The behaviour of the asynchronous engine run: it settles (resolves or
rejects) at some time `t` in milliseconds after being started, or never
settles. -/
inductive AxeRun where
  | resolvesAt (t : Nat) (results : AxeResults)
  | rejectsAt (t : Nat) (msg : String)
  | neverSettles
deriving DecidableEq

/-- Whether the engine run has settled strictly before `d` milliseconds,
i.e. before the timer scheduled at `d` fires. -/
def settlesWithin (b : AxeRun) (d : Nat) : Bool :=
  match b with
  | AxeRun.resolvesAt t _ => decide (t < d)
  | AxeRun.rejectsAt t _ => decide (t < d)
  | AxeRun.neverSettles => false

/-- How the awaited promise settles. -/
inductive AuditOutcome where
  | ok (r : AxeResults)
  | err (msg : String)
deriving DecidableEq

/-- Observable trace of one run of the audit promise: how it settled, whether
`clearTimeout` ran before the timer fired, and whether any cancellation was
propagated into the engine (the source contains no cancellation call, so this
is false on every path — the pending run is merely abandoned). -/
structure RunnerTrace where
  outcome : AuditOutcome
  timerCleared : Bool
  engineCancelled : Bool
deriving DecidableEq

/-- The promise of source lines 379-395: the timer rejects with `timeoutMsg`
at `axeTimeoutMs`; if the engine settles strictly first, `clearTimeout` runs
and the promise resolves with the raw results (or rejects with the error
of the engine).  A settlement at or after the deadline loses the race: the promise
has already been rejected by the timer. -/
def runAxe (b : AxeRun) : RunnerTrace :=
  match b with
  | AxeRun.resolvesAt t r =>
    if t < axeTimeoutMs then
      { outcome := AuditOutcome.ok r, timerCleared := true, engineCancelled := false }
    else
      { outcome := AuditOutcome.err timeoutMsg, timerCleared := false, engineCancelled := false }
  | AxeRun.rejectsAt t m =>
    if t < axeTimeoutMs then
      { outcome := AuditOutcome.err m, timerCleared := true, engineCancelled := false }
    else
      { outcome := AuditOutcome.err timeoutMsg, timerCleared := false, engineCancelled := false }
  | AxeRun.neverSettles =>
    { outcome := AuditOutcome.err timeoutMsg, timerCleared := false, engineCancelled := false }

/- ------------------------------------------------------------------
Result formatting and assembly, source lines 409-444.
------------------------------------------------------------------ -/

/-- A node descriptor after formatting (source lines 415-418). -/
structure ViolationNode where
  html : String
  failureSummary : String
deriving DecidableEq

/-- A violation after formatting (source lines 409-419). -/
structure Violation where
  id : String
  impact : Option String
  description : String
  help : String
  helpUrl : String
  nodes : List ViolationNode
deriving DecidableEq

/-- The per-node projection of the formatting map. -/
def formatNode (n : RawNode) : ViolationNode :=
  { html := n.html, failureSummary := n.failureSummary }

/-- The per-violation projection of the formatting map: exactly the listed
fields are kept, engine-internal fields are dropped. -/
def formatViolation (v : RawViolation) : Violation :=
  { id := v.id, impact := v.impact, description := v.description,
    help := v.help, helpUrl := v.helpUrl, nodes := v.nodes.map formatNode }

/-- `axeResults.violations.map(...)` of source line 409. -/
def formatViolations (r : AxeResults) : List Violation :=
  r.violations.map formatViolation

/-- The component value obtained from
`componentModule.default || componentModule`: whether it is a function
(`typeof Component === "function"`), its `typeof` string for the error
message, and `Object.keys(Component.propTypes)` in declaration order when a
truthy `propTypes` is present. -/
structure ComponentVal where
  isFunction : Bool
  typeName : String
  propTypes : Option (List String)
deriving DecidableEq

/-- Source lines 288-296: iterate the declared property names and record
those for which `propName in props` fails, preserving declaration order.
A component without `propTypes` contributes no missing properties. -/
def missingPropsOf (propTypes : Option (List String)) (props : List String) : List String :=
  match propTypes with
  | none => []
  | some names => names.filter (fun n => !(props.contains n))

/-- The fixed generic remediation hint attached to every error response. -/
def hintText : String :=
  "Make sure the file exists, exports a valid React component (default export), and that all required dependencies are installed in your project."

/-- The fixed zero-violation summary sentence. -/
def passSummary : String :=
  "No accessibility violations found! The page passes all axe-core checks."

/-- The count-carrying summary sentence used when violations were found. -/
def foundSummary (n : Nat) : String :=
  "Found " ++ toString n ++ " accessibility violation(s). Review the violations array for details and fixes."

/-- The message of the error thrown when the resolved export is not a
function (source lines 273-278). -/
def notComponentMsg (pagePath : String) (typeName : String) : String :=
  "The file \"" ++ pagePath ++ "\" does not export a valid React component. Got " ++ typeName ++ " instead of a function."

/-- The structured Check Result of source lines 435-444.  `missingProps` is
an `Option` because the spread `...(missingProps.length > 0 && { missingProps })`
includes the field only when the list is non-empty. -/
structure CheckResult where
  filePath : String
  totalViolations : Nat
  violations : List Violation
  missingProps : Option (List String)
  summary : String
deriving DecidableEq

/-- The tool response: a serialized Check Result, or the uniform error shape
built in the catch block (a message plus the fixed hint, with `isError`
set). -/
inductive Response where
  | success (result : CheckResult)
  | error (message : String) (hint : String)
deriving DecidableEq

/-- Everything the handler reads from the outside world during one request,
so its own control flow can be modelled exactly.  `loadComponent` is the
combined outcome of `require(fullPath)` and the `default || module`
selection (`Except.error msg` when the require throws, e.g. nonexistent
path); `render` is `ReactDOMServer.renderToString`; `evalAxe` is
`dom.window.eval(axeSource)`; `axeRun` is the behaviour of the engine run. -/
structure Env where
  pagePath : String
  fullPath : String
  loadComponent : Except String ComponentVal
  routerAvailable : Bool
  muiAvailable : Bool
  loadThemeAt : String → Option JsVal
  createThemeVal : JsVal
  render : Element → Except String String
  evalAxe : Except String Unit
  axeRun : AxeRun

/-- What one handler invocation produces, together with the resource facts
the claims are about: whether a jsdom document was created, and how many
times `dom.window.close()` ran before the handler returned. -/
structure HandlerOutput where
  response : Response
  domCreated : Bool
  closeCount : Nat
deriving DecidableEq

/-- Source lines 435-444: the success result record. -/
def assembleResult (env : Env) (missing : List String) (raw : AxeResults) : CheckResult :=
  let vs := formatViolations raw
  { filePath := env.fullPath
    totalViolations := vs.length
    violations := vs
    missingProps := if missing.length > 0 then some missing else none
    summary := if vs.length = 0 then passSummary else foundSummary vs.length }

/-- The tail of the handler from the point the jsdom document exists
(source lines 377-453): inject the engine source, await the racing promise,
format and assemble on success.  `dom.window.close()` (line 422) is reached
only on the success path; when `eval` throws or the promise rejects, control
transfers to the catch block without closing the document. -/
def auditPhase (env : Env) (missing : List String) : HandlerOutput :=
  match env.evalAxe with
  | Except.error msg =>
    { response := Response.error msg hintText, domCreated := true, closeCount := 0 }
  | Except.ok _ =>
    match (runAxe env.axeRun).outcome with
    | AuditOutcome.err msg =>
      { response := Response.error msg hintText, domCreated := true, closeCount := 0 }
    | AuditOutcome.ok raw =>
      { response := Response.success (assembleResult env missing raw),
        domCreated := true, closeCount := 1 }

/-- The whole `accessibilityCheck` handler (source lines 243-478).  `propsOpt`
is the optional `props` argument; the parameter default `props = {}` makes an
omitted mapping behave as the empty mapping.  Any thrown step becomes the
uniform error response of the catch block. -/
def runCheck (env : Env) (propsOpt : Option (List String)) : HandlerOutput :=
  let props := propsOpt.getD []
  match env.loadComponent with
  | Except.error msg =>
    { response := Response.error msg hintText, domCreated := false, closeCount := 0 }
  | Except.ok comp =>
    if comp.isFunction then
      let missing := missingPropsOf comp.propTypes props
      let element := wrapElement env.routerAvailable env.muiAvailable env.loadThemeAt
        env.createThemeVal (Element.component props)
      match env.render element with
      | Except.error msg =>
        { response := Response.error msg hintText, domCreated := false, closeCount := 0 }
      | Except.ok _ => auditPhase env missing
    else
      { response := Response.error (notComponentMsg env.pagePath comp.typeName) hintText,
        domCreated := false, closeCount := 0 }

/- ------------------------------------------------------------------
Spec-side definitions (used to compare the source behaviour against the
words of the spec for the theme-selection claim).
------------------------------------------------------------------ -/

/-- Follows the claim as stated: the theme is the value of the first
location that loads successfully, and the default only when no location
loads at all. -/
def specThemeFirstLoaded (load : String → Option JsVal) (defaultTheme : JsVal) : JsVal :=
  (themeLocations.findSome? load).getD defaultTheme

/-- Follows the amended claim: the first successfully loaded value is used
when it is truthy; otherwise (no location loads, or the first loaded value
is falsy) the in-process default is used. -/
def specThemeAmended (load : String → Option JsVal) (defaultTheme : JsVal) : JsVal :=
  match themeLocations.findSome? load with
  | some t => if t.truthy then t else defaultTheme
  | none => defaultTheme

/- ------------------------------------------------------------------
Concrete environments used by witnesses and counterexamples.
------------------------------------------------------------------ -/

/-- A theme-probe environment in which no theme file loads. -/
def noThemeFiles : String → Option JsVal := fun _ => none

/-- A stand-in for the value `createTheme()` constructs. -/
def defaultThemeVal : JsVal := { truthy := true, tag := 0 }

/-- An engine result with no violations. -/
def emptyAxe : AxeResults := { violations := [] }

/-- The SamplePage component: a function with propTypes declaring
`title` then `username`. -/
def compBase : ComponentVal :=
  { isFunction := true, typeName := "function", propTypes := some ["title", "username"] }

/-- A fully successful environment: the component loads, no optional
providers are present, rendering and injection succeed, and the engine
resolves with no violations well before the deadline. -/
def envBase : Env :=
  { pagePath := "SamplePage.jsx"
    fullPath := "/proj/SamplePage.jsx"
    loadComponent := Except.ok compBase
    routerAvailable := false
    muiAvailable := false
    loadThemeAt := noThemeFiles
    createThemeVal := defaultThemeVal
    render := fun _ => Except.ok ("<div></div>")
    evalAxe := Except.ok ()
    axeRun := AxeRun.resolvesAt 5 emptyAxe }

/-- The result `envBase` produces when no props are supplied. -/
def checkResultBase : CheckResult :=
  { filePath := "/proj/SamplePage.jsx"
    totalViolations := 0
    violations := []
    missingProps := some ["title", "username"]
    summary := passSummary }

/-- The result `envBase` produces when only `title` is supplied. -/
def checkResultTitleGiven : CheckResult :=
  { filePath := "/proj/SamplePage.jsx"
    totalViolations := 0
    violations := []
    missingProps := some ["username"]
    summary := passSummary }

/-- An environment in which the target module fails to load. -/
def envLoadFail : Env :=
  { envBase with loadComponent := Except.error ("Cannot find module /proj/Missing.jsx") }

/-- A module whose resolved export is a plain object, not a function. -/
def compObject : ComponentVal :=
  { isFunction := false, typeName := "object", propTypes := none }

/-- An environment in which the resolved export is not a function. -/
def envNotFunc : Env := { envBase with loadComponent := Except.ok compObject }

/-- A theme-probe environment in which the first location loads successfully
but the loaded value is falsy (e.g. a theme file whose module export is a
falsy primitive). -/
def falsyThemeLoad : String → Option JsVal :=
  fun loc => if loc = "src/theme.jsx" then some { truthy := false, tag := 7 } else none

/-- A resolved target path, for concrete cache scenarios. -/
def samplePath : String := "/proj/SamplePage.jsx"

/-- A resolved transitive-dependency path, for concrete cache scenarios. -/
def reactDepPath : String := "/proj/node_modules/react/index.js"

/-- A bare component element, for concrete wrapping scenarios. -/
def elemBase : Element := Element.component []

/- ------------------------------------------------------------------
Helper lemmas (shared inversion facts about the handler).
------------------------------------------------------------------ -/

/-- Inversion for the audit phase: a success response pins down the engine
outcome and the assembled result. -/
theorem auditPhase_success_inv (env : Env) (missing : List String) (r : CheckResult)
    (h : (auditPhase env missing).response = Response.success r) :
    ∃ raw, (runAxe env.axeRun).outcome = AuditOutcome.ok raw ∧
      r = assembleResult env missing raw := by
  unfold auditPhase at h
  cases heval : env.evalAxe with
  | error msg => rw [heval] at h; simp at h
  | ok u =>
    rw [heval] at h
    cases hout : (runAxe env.axeRun).outcome with
    | err msg => rw [hout] at h; simp at h
    | ok raw =>
      rw [hout] at h
      simp only [Response.success.injEq] at h
      exact ⟨raw, rfl, h.symm⟩

/-- Inversion for the whole handler: a success response pins down the loaded
component, the engine outcome, and the assembled result. -/
theorem runCheck_success_inv (env : Env) (p : Option (List String)) (r : CheckResult)
    (h : (runCheck env p).response = Response.success r) :
    ∃ comp raw, env.loadComponent = Except.ok comp ∧ comp.isFunction = true ∧
      (runAxe env.axeRun).outcome = AuditOutcome.ok raw ∧
      r = assembleResult env (missingPropsOf comp.propTypes (p.getD [])) raw := by
  unfold runCheck at h
  cases hlc : env.loadComponent with
  | error msg => rw [hlc] at h; simp at h
  | ok comp =>
    rw [hlc] at h
    simp only [] at h
    cases hf : comp.isFunction with
    | false => simp [hf] at h
    | true =>
      simp only [hf, if_true] at h
      cases hren : env.render (wrapElement env.routerAvailable env.muiAvailable env.loadThemeAt
          env.createThemeVal (Element.component (p.getD []))) with
      | error msg => rw [hren] at h; simp at h
      | ok html =>
        rw [hren] at h
        simp only [] at h
        obtain ⟨raw, hout, hr⟩ := auditPhase_success_inv env _ r h
        exact ⟨comp, raw, rfl, hf, hout, hr⟩

/-- Every audit-phase response is either a success or the uniform error
shape carrying the fixed hint. -/
theorem auditPhase_shape (env : Env) (missing : List String) :
    (∃ r, (auditPhase env missing).response = Response.success r) ∨
      (∃ m, (auditPhase env missing).response = Response.error m hintText) := by
  unfold auditPhase
  cases heval : env.evalAxe with
  | error msg => right; exact ⟨msg, rfl⟩
  | ok u =>
    cases hout : (runAxe env.axeRun).outcome with
    | err msg => right; exact ⟨msg, rfl⟩
    | ok raw => left; exact ⟨assembleResult env missing raw, rfl⟩

/- ------------------------------------------------------------------
Claim theorems.
------------------------------------------------------------------ -/

/-- C1: the claim states that the jsdom window is closed exactly once before
the pipeline returns on the success path, the audit-error path, and the
timeout path alike.  The code closes the document only on the success path:
evaluated on an environment whose audit never settles (timeout) or rejects
(audit error), the handler returns an error response with the document
created but never closed, while the success path closes it once. -/
theorem C1_close_skipped_on_audit_failure :
    (runCheck { envBase with axeRun := AxeRun.neverSettles } none).domCreated = true ∧
    (runCheck { envBase with axeRun := AxeRun.neverSettles } none).closeCount = 0 ∧
    (runCheck { envBase with axeRun := AxeRun.neverSettles } none).response =
      Response.error timeoutMsg hintText ∧
    (runCheck { envBase with axeRun := AxeRun.rejectsAt 5 "engine failure" } none).domCreated = true ∧
    (runCheck { envBase with axeRun := AxeRun.rejectsAt 5 "engine failure" } none).closeCount = 0 ∧
    (runCheck envBase none).closeCount = 1 :=
  ⟨rfl, rfl, rfl, rfl, rfl, rfl⟩

/-- C3: for every Check Result the pipeline produces, `totalViolations`
equals the length of the violations sequence. -/
theorem C3_total_violations (env : Env) (p : Option (List String)) (r : CheckResult)
    (h : (runCheck env p).response = Response.success r) :
    r.totalViolations = r.violations.length := by
  obtain ⟨comp, raw, hlc, hf, hout, hr⟩ := runCheck_success_inv env p r h
  subst hr
  rfl

/-- Witness for C3 at a concrete successful run. -/
theorem C3_witness :
    (runCheck envBase none).response = Response.success checkResultBase ∧
    checkResultBase.totalViolations = checkResultBase.violations.length :=
  ⟨rfl, C3_total_violations envBase none checkResultBase rfl⟩

/-- C4: if the engine resolves before the 30-second deadline, the timer is
cleared and its raw result is returned; if the run has not settled within
the window, the audit fails with the timeout error while the pending run is
abandoned — the timer was never cleared and no cancellation is propagated
into the engine. -/
theorem C4_timeout_race (b : AxeRun) :
    (∀ t r, b = AxeRun.resolvesAt t r → t < axeTimeoutMs →
      runAxe b = { outcome := AuditOutcome.ok r, timerCleared := true, engineCancelled := false }) ∧
    (settlesWithin b axeTimeoutMs = false →
      (runAxe b).outcome = AuditOutcome.err timeoutMsg ∧
      (runAxe b).timerCleared = false ∧
      (runAxe b).engineCancelled = false) := by
  constructor
  · intro t r hb ht
    subst hb
    simp [runAxe, ht]
  · intro hs
    cases b with
    | resolvesAt t r =>
      simp only [settlesWithin, decide_eq_false_iff_not] at hs
      simp [runAxe, hs]
    | rejectsAt t m =>
      simp only [settlesWithin, decide_eq_false_iff_not] at hs
      simp [runAxe, hs]
    | neverSettles => simp [runAxe]

/-- Witness for C4: a resolve at 5 ms wins the race; a run that never
settles times out uncancelled. -/
theorem C4_witness :
    runAxe (AxeRun.resolvesAt 5 emptyAxe) =
      { outcome := AuditOutcome.ok emptyAxe, timerCleared := true, engineCancelled := false } ∧
    (runAxe AxeRun.neverSettles).outcome = AuditOutcome.err timeoutMsg ∧
    (runAxe AxeRun.neverSettles).timerCleared = false ∧
    (runAxe AxeRun.neverSettles).engineCancelled = false :=
  ⟨(C4_timeout_race (AxeRun.resolvesAt 5 emptyAxe)).1 5 emptyAxe rfl (by decide),
    (C4_timeout_race AxeRun.neverSettles).2 rfl⟩

/-- C6: the eviction step discards exactly the cache entry of the resolved
target path (leaving every other entry untouched), entries present before a
check survive the subsequent load step, and when resolution throws the
cache is left unchanged. -/
theorem C6_cache_eviction (cache : List String) (key q : String) (deps : List String)
    (hq : q ≠ key) :
    key ∉ cacheEvictStep (some key) cache ∧
    (q ∈ cacheEvictStep (some key) cache ↔ q ∈ cache) ∧
    (q ∈ cache → q ∈ cacheLoadStep key deps (cacheEvictStep (some key) cache)) ∧
    cacheEvictStep none cache = cache := by
  refine ⟨?_, ?_, ?_, rfl⟩
  · simp [cacheEvictStep, List.mem_filter]
  · simp [cacheEvictStep, List.mem_filter, hq]
  · intro hmem
    simp only [cacheLoadStep, List.mem_cons, List.mem_append]
    right; right
    simp [cacheEvictStep, List.mem_filter, hmem, hq]

/-- Witness for C6 on a concrete two-entry cache. -/
theorem C6_witness :
    samplePath ∉ cacheEvictStep (some samplePath) [samplePath, reactDepPath] ∧
    (reactDepPath ∈ cacheEvictStep (some samplePath) [samplePath, reactDepPath] ↔
      reactDepPath ∈ [samplePath, reactDepPath]) ∧
    (reactDepPath ∈ [samplePath, reactDepPath] →
      reactDepPath ∈ cacheLoadStep samplePath [] (cacheEvictStep (some samplePath) [samplePath, reactDepPath])) ∧
    cacheEvictStep none [samplePath, reactDepPath] = [samplePath, reactDepPath] :=
  C6_cache_eviction [samplePath, reactDepPath] samplePath reactDepPath [] (by decide)

/-- C7: for every combination of absent optional providers the wrapping step
succeeds, skipping each unresolvable provider; when both are absent the bare
element is rendered, and when present the router wraps directly around the
element with the theme provider outermost. -/
theorem C7_wrapping (router mui : Bool) (load : String → Option JsVal) (ct : JsVal)
    (e : Element) :
    (router = false → mui = false → wrapElement router mui load ct e = e) ∧
    (router = true → mui = false → wrapElement router mui load ct e = Element.memoryRouter e) ∧
    (router = false → mui = true →
      wrapElement router mui load ct e = Element.themeProvider (resolveTheme load ct) e) ∧
    (router = true → mui = true →
      wrapElement router mui load ct e =
        Element.themeProvider (resolveTheme load ct) (Element.memoryRouter e)) := by
  refine ⟨?_, ?_, ?_, ?_⟩ <;> intro hr hm <;> subst hr <;> subst hm <;>
    simp [wrapElement, wrapTheme, wrapRouter]

/-- Witness for C7 at the four concrete provider combinations. -/
theorem C7_witness :
    wrapElement false false noThemeFiles defaultThemeVal elemBase = elemBase ∧
    wrapElement true false noThemeFiles defaultThemeVal elemBase = Element.memoryRouter elemBase ∧
    wrapElement false true noThemeFiles defaultThemeVal elemBase =
      Element.themeProvider (resolveTheme noThemeFiles defaultThemeVal) elemBase ∧
    wrapElement true true noThemeFiles defaultThemeVal elemBase =
      Element.themeProvider (resolveTheme noThemeFiles defaultThemeVal) (Element.memoryRouter elemBase) :=
  ⟨(C7_wrapping false false noThemeFiles defaultThemeVal elemBase).1 rfl rfl,
    (C7_wrapping true false noThemeFiles defaultThemeVal elemBase).2.1 rfl rfl,
    (C7_wrapping false true noThemeFiles defaultThemeVal elemBase).2.2.1 rfl rfl,
    (C7_wrapping true true noThemeFiles defaultThemeVal elemBase).2.2.2 rfl rfl⟩

/-- C2: the missing-properties list of a success result contains exactly the
declared property names absent from the supplied mapping — a sublist of the
declaration order whose members are characterised by exact (case-sensitive)
membership — and the field is present precisely when that list is
non-empty. -/
theorem C2_missing_props (env : Env) (props : List String) (comp : ComponentVal)
    (names : List String) (r : CheckResult)
    (hlc : env.loadComponent = Except.ok comp)
    (hpt : comp.propTypes = some names)
    (h : (runCheck env (some props)).response = Response.success r) :
    (∀ l, r.missingProps = some l →
      l ≠ [] ∧ l.Sublist names ∧ ∀ n, n ∈ l ↔ n ∈ names ∧ props.contains n = false) ∧
    (r.missingProps = none → ∀ n, n ∈ names → props.contains n = true) := by
  obtain ⟨comp2, raw, hlc2, hf, hout, hr⟩ := runCheck_success_inv env (some props) r h
  rw [hlc] at hlc2
  injection hlc2 with hcomp
  subst hcomp
  subst hr
  have hmp : (assembleResult env (missingPropsOf comp.propTypes ((some props).getD [])) raw).missingProps
      = (if (names.filter (fun n => !(props.contains n))).length > 0
          then some (names.filter (fun n => !(props.contains n))) else none) := by
    simp [assembleResult, missingPropsOf, hpt]
  constructor
  · intro l hl
    rw [hmp] at hl
    split at hl
    · next hlen =>
      injection hl with hl2
      subst hl2
      refine ⟨?_, List.filter_sublist names, ?_⟩
      · exact List.ne_nil_of_length_pos hlen
      · intro n
        simp [List.mem_filter]
    · simp at hl
  · intro hnone n hn
    rw [hmp] at hnone
    split at hnone
    · simp at hnone
    · next hlen =>
      by_contra hc
      rw [Bool.not_eq_true] at hc
      have hmem : n ∈ names.filter (fun n => !(props.contains n)) :=
        List.mem_filter.mpr ⟨hn, by simp only [hc, Bool.not_false]⟩
      exact hlen (List.length_pos_of_mem hmem)

/-- Witness for C2: supplying only `title` to a component declaring
`title` then `username` yields a missing list characterised as exactly
`username`. -/
theorem C2_witness :
    (∀ l, checkResultTitleGiven.missingProps = some l →
      l ≠ [] ∧ l.Sublist ["title", "username"] ∧
      ∀ n, n ∈ l ↔ n ∈ ["title", "username"] ∧ (["title"].contains n) = false) ∧
    (checkResultTitleGiven.missingProps = none →
      ∀ n, n ∈ ["title", "username"] → (["title"].contains n) = true) :=
  C2_missing_props envBase ["title"] compBase ["title", "username"] checkResultTitleGiven rfl rfl rfl

/-- C5: a failed module load and a non-function export each produce the
uniform structured error response (the message plus the fixed generic hint),
and every handler outcome whatsoever is either a success result or that
single uniform error shape — no failure escapes the pipeline boundary. -/
theorem C5_uniform_errors (env : Env) (p : Option (List String)) :
    (∀ msg, env.loadComponent = Except.error msg →
      (runCheck env p).response = Response.error msg hintText) ∧
    (∀ comp, env.loadComponent = Except.ok comp → comp.isFunction = false →
      (runCheck env p).response = Response.error (notComponentMsg env.pagePath comp.typeName) hintText) ∧
    ((∃ r, (runCheck env p).response = Response.success r) ∨
      (∃ m, (runCheck env p).response = Response.error m hintText)) := by
  refine ⟨?_, ?_, ?_⟩
  · intro msg hm
    simp [runCheck, hm]
  · intro comp hc hf
    simp [runCheck, hc, hf]
  · unfold runCheck
    cases hlc : env.loadComponent with
    | error msg => right; exact ⟨msg, rfl⟩
    | ok comp =>
      cases hf : comp.isFunction with
      | false =>
        right
        exact ⟨notComponentMsg env.pagePath comp.typeName, by simp [hf]⟩
      | true =>
        cases hren : env.render (wrapElement env.routerAvailable env.muiAvailable env.loadThemeAt
            env.createThemeVal (Element.component (p.getD []))) with
        | error msg =>
          right
          exact ⟨msg, by simp [hf, hren]⟩
        | ok html =>
          rcases auditPhase_shape env (missingPropsOf comp.propTypes (p.getD [])) with
            ⟨r, hr⟩ | ⟨m, hm⟩
          · left
            exact ⟨r, by simp only [hf, if_true, hren]; exact hr⟩
          · right
            exact ⟨m, by simp only [hf, if_true, hren]; exact hm⟩

/-- Witness for C5: a load failure and a non-function export at concrete
environments, plus the shape disjunction at a successful one. -/
theorem C5_witness :
    (runCheck envLoadFail none).response =
      Response.error ("Cannot find module /proj/Missing.jsx") hintText ∧
    (runCheck envNotFunc none).response =
      Response.error (notComponentMsg envNotFunc.pagePath compObject.typeName) hintText ∧
    ((∃ r, (runCheck envBase none).response = Response.success r) ∨
      (∃ m, (runCheck envBase none).response = Response.error m hintText)) :=
  ⟨(C5_uniform_errors envLoadFail none).1 ("Cannot find module /proj/Missing.jsx") rfl,
    (C5_uniform_errors envNotFunc none).2.1 compObject rfl rfl,
    (C5_uniform_errors envBase none).2.2⟩

/-- C8 counterexample: when the first theme location loads successfully but
its value is falsy, the code constructs the default theme in-process, so the
theme is not the first successfully loaded value as the claim states. -/
theorem C8_counterexample :
    themeLoop falsyThemeLoad themeLocations = some { truthy := false, tag := 7 } ∧
    specThemeFirstLoaded falsyThemeLoad defaultThemeVal = { truthy := false, tag := 7 } ∧
    resolveTheme falsyThemeLoad defaultThemeVal = defaultThemeVal ∧
    resolveTheme falsyThemeLoad defaultThemeVal ≠
      specThemeFirstLoaded falsyThemeLoad defaultThemeVal := by
  refine ⟨rfl, rfl, rfl, ?_⟩
  decide

/-- C8 (amended): when the theming provider is present the element is
wrapped in a ThemeProvider whose theme is the first value that a probe
location successfully loads when that value is truthy, and otherwise (no
location loads, or the first loaded value is falsy) the in-process default
theme. -/
theorem C8_theme_selection (load : String → Option JsVal) (ct : JsVal) (e : Element) :
    wrapTheme true load ct e = Element.themeProvider (specThemeAmended load ct) e := by
  have hloop : ∀ ls : List String, themeLoop load ls = ls.findSome? load := by
    intro ls
    induction ls with
    | nil => rfl
    | cons a rest ih =>
      simp only [themeLoop, List.findSome?]
      cases h : load a with
      | some m => rfl
      | none => exact ih
  simp [wrapTheme, resolveTheme, specThemeAmended, hloop]

/-- C9: the summary line of a success result is fully determined by the violation
count — the fixed pass sentence at zero, the count-carrying sentence
otherwise — and a run with zero violations has `totalViolations = 0` and the
pass sentence. -/
theorem C9_summary_from_count (env : Env) (p : Option (List String)) (r : CheckResult)
    (h : (runCheck env p).response = Response.success r) :
    r.summary = (if r.totalViolations = 0 then passSummary else foundSummary r.totalViolations) ∧
    (r.violations = [] → r.totalViolations = 0 ∧ r.summary = passSummary) := by
  obtain ⟨comp, raw, hlc, hf, hout, hr⟩ := runCheck_success_inv env p r h
  subst hr
  constructor
  · rfl
  · intro hv
    have hv2 : formatViolations raw = [] := hv
    constructor
    · show (formatViolations raw).length = 0
      rw [hv2]
      rfl
    · show (if (formatViolations raw).length = 0 then passSummary
          else foundSummary (formatViolations raw).length) = passSummary
      rw [hv2]
      rfl

/-- Witness for C9 at a concrete zero-violation run. -/
theorem C9_witness :
    (checkResultBase.summary =
      if checkResultBase.totalViolations = 0 then passSummary
      else foundSummary checkResultBase.totalViolations) ∧
    (checkResultBase.violations = [] →
      checkResultBase.totalViolations = 0 ∧ checkResultBase.summary = passSummary) :=
  C9_summary_from_count envBase none checkResultBase rfl

/-- C10: an omitted property mapping defaults to the empty mapping — the
handler behaves identically to one given the empty mapping — so every
declared property name is reported missing (the full declaration list, when
non-empty). -/
theorem C10_default_props (env : Env) (comp : ComponentVal) (names : List String)
    (r : CheckResult)
    (hlc : env.loadComponent = Except.ok comp)
    (hpt : comp.propTypes = some names)
    (h : (runCheck env none).response = Response.success r) :
    runCheck env none = runCheck env (some []) ∧
    r.missingProps = (if names.length > 0 then some names else none) := by
  refine ⟨rfl, ?_⟩
  obtain ⟨comp2, raw, hlc2, hf, hout, hr⟩ := runCheck_success_inv env none r h
  rw [hlc] at hlc2
  injection hlc2 with hcomp
  subst hcomp
  subst hr
  have hfil : names.filter (fun n => !(([] : List String).contains n)) = names := by
    simp
  simp only [assembleResult, hpt, missingPropsOf, Option.getD, hfil]

/-- Witness for C10 at the SamplePage-like component with props omitted. -/
theorem C10_witness :
    runCheck envBase none = runCheck envBase (some []) ∧
    checkResultBase.missingProps =
      (if (["title", "username"] : List String).length > 0
        then some ["title", "username"] else none) :=
  C10_default_props envBase compBase ["title", "username"] checkResultBase rfl rfl rfl

end AccessibilityChecker
